import Mathlib

/-!
Verification of the OneKeyVE reframing scripts.

The definitions below are a shallow embedding of the decision logic,
geometry and encode-supervision loop of the repository scripts
(VE_QW_FInal_prefect.py, main_gui_v3_release.py, ve_wallpaper.py and
their variants).  Python floats are modelled as rationals, Python
integers as Nat or Int (Python floor division // is Int.fdiv), and the
progress stream consumed by the supervisor is modelled as a list of
timestamped lines, each carrying the frame number extracted by the
regular expression, when one matched.
-/

namespace OneKeyVE

/-! ### Global constants of VE_QW_FInal_prefect.py -/

/-- TARGET_RATIO = 9/16 (VE_QW_FInal_prefect.py line 47). -/
def TARGET_RATIO : ℚ := 9/16

/-- FEATHER_WIDTH = 30 (VE_QW_FInal_prefect.py line 50). -/
def FEATHER_WIDTH : ℕ := 30

/-- MAX_DURATION = 60.0 (VE_QW_FInal_prefect.py line 52). -/
def MAX_DURATION : ℚ := 60

/-- TRIM_DURATION = 14.0 (VE_QW_FInal_prefect.py line 53). -/
def TRIM_DURATION : ℚ := 14

/-! ### Rotation decision (VE_QW_FInal_prefect.py line 626) -/

/-- The rotation decision of FFmpegManager.process_video:
needs_rotation = 1.0 <= original_ratio <= 16/9. -/
def needs_rotation (original_ratio : ℚ) : Bool :=
  decide (1 ≤ original_ratio ∧ original_ratio ≤ 16/9)

/-- The working-dimension swap applied when a source is rotated:
w, h = (oh, ow) if rotate else (ow, oh)
(ve_wallpaper.py line 89, main_gui_v3_release.py line 168). -/
def workingDims (rotate : Bool) (w h : ℕ) : ℕ × ℕ :=
  if rotate then (h, w) else (w, h)

/-! ### Ratio classification (VE_QW_FInal_prefect.py lines 913 to 936) -/

/-- is_target_ratio: skip when the ratio is within tolerance 0.01 of
9/16, or of the near-equivalent ratios 9/18 and 9/15. -/
def is_target_ratio (ratio : ℚ) : Bool :=
  if |ratio - TARGET_RATIO| < 1/100 then true
  else if |ratio - 9/18| < 1/100 || |ratio - 9/15| < 1/100 then true
  else false

/-! ### Trim decision (VE_QW_FInal_prefect.py lines 594 to 623) -/

/-- The trim decision taken at the top of process_video: when the
probed duration exceeds MAX_DURATION the unit is re-cut to the leading
TRIM_DURATION seconds, otherwise no trim is selected. -/
def decideTrim (duration : ℚ) : Option ℚ :=
  if MAX_DURATION < duration then some TRIM_DURATION else none

/-- The working source selected after the trim stage of process_video.
When the duration exceeds MAX_DURATION the script attempts trim_video;
on trim success it re-probes the trimmed artifact (a re-probe failure
aborts the unit, modelled as none); on trim failure it logs a warning
and keeps processing the original file. -/
inductive WorkingSource
  | original
  | trimmed
deriving DecidableEq, Repr

/-- Outcome of the trim stage: none means the unit is aborted
(process_video returns False at that point), some s means processing
continues with working source s. -/
def trim_stage (duration : ℚ) (trimOk reprobeOk : Bool) : Option WorkingSource :=
  if MAX_DURATION < duration then
    if trimOk then
      if reprobeOk then some WorkingSource.trimmed else none
    else some WorkingSource.original
  else some WorkingSource.original

/-- End-to-end unit outcome as a function of the trim stage and of the
final encode result: an aborted trim stage fails the unit, otherwise
the unit result is the encode result. -/
def process_video_outcome (duration : ℚ) (trimOk reprobeOk encodeOk : Bool) : Bool :=
  match trim_stage duration trimOk reprobeOk with
  | none => false
  | some _ => encodeOk

/-! ### Foreground geometry (VE_QW_FInal_prefect.py lines 400 to 434) -/

/-- Scale and centering parameters of the foreground layer. -/
structure FgSpec where
  scaledW : ℕ
  scaledH : ℕ
  padX : ℤ
  padY : ℤ
deriving DecidableEq, Repr

/-- Geometry computed by FFmpegManager.create_feathered_foreground.
A source whose display ratio exceeds TARGET_RATIO is scaled to the
full target width and the scaled height is
int(orig_h * target_width / orig_w); otherwise it is scaled to the
full target height with scaled width int(orig_w * target_height /
orig_h).  The int(...) truncation of a non-negative exact quotient is
Nat division; the pad offsets use Python floor division, which on Int
is Int.fdiv. -/
def create_feathered_foreground (origW origH : ℕ) (original_ratio : ℚ)
    (target_width target_height : ℕ) : FgSpec :=
  if TARGET_RATIO < original_ratio then
    let scaled_width := target_width
    let scaled_height := origH * target_width / origW
    { scaledW := scaled_width, scaledH := scaled_height,
      padX := 0,
      padY := Int.fdiv ((target_height : ℤ) - (scaled_height : ℤ)) 2 }
  else
    let scaled_height := target_height
    let scaled_width := origW * target_height / origH
    { scaledW := scaled_width, scaledH := scaled_height,
      padX := Int.fdiv ((target_width : ℤ) - (scaled_width : ℤ)) 2,
      padY := 0 }

/-- Modelled from the spec: the background branch delegates cover
scaling to the external engine (scale with
force_original_aspect_ratio=increase followed by a centered crop in
process_video); the spec describes the effect as the factor
max(targetWidth/srcW, targetHeight/srcH) applied to both source
dimensions. -/
def coverScaledSize (srcW srcH targetW targetH : ℚ) : ℚ × ℚ :=
  let factor := max (targetW / srcW) (targetH / srcH)
  (srcW * factor, srcH * factor)

/-- The feather width the scripts actually use: the fixed constant
FEATHER_WIDTH of VE_QW_FInal_prefect.py (ve_wallpaper.py hard-codes
the same 30 pixel border in its mask).  No script clamps it against
the target canvas, so the value does not depend on the target. -/
def featherWidthPx (targetW targetH : ℕ) : ℕ := FEATHER_WIDTH

/-! ### Encode supervision (main_gui_v3_release.py lines 79 to 127)

The progress stream is modelled as a list of timestamped lines; each
entry carries the frame number that the regular expression
frame=\s*(\d+) extracted from the line, or none when the line carries
no frame token.  The cooperative cancellation flag is taken to stay
true for the whole run. -/

/-- Result of run_ffmpeg_task: success when the loop ends and the
child exit code is zero, failed when it is non-zero, stalled when the
watchdog fired (the code calls process.terminate() and returns
False). -/
inductive TaskResult
  | success
  | failed
  | stalled
deriving DecidableEq, Repr

/-- Supervisor state: last_frame_count (initialised to minus one) and
last_active_time. -/
structure WdState where
  lastFrame : ℤ
  lastActive : ℚ
deriving DecidableEq, Repr

/-- State update for one line: when the line carries a frame number
different from last_frame_count, both the counter and the last-advance
timestamp are updated; a duplicate value, or a line without a frame
token, leaves the state unchanged. -/
def wdUpdate (s : WdState) (t : ℚ) (fr : Option ℕ) : WdState :=
  match fr with
  | none => s
  | some n =>
    if (n : ℤ) = s.lastFrame then s
    else { lastFrame := (n : ℤ), lastActive := t }

/-- Progress values emitted for one line: on a changed frame value and
a positive frame total the loop emits
min(100, current_frame * 100 / total_frames); a duplicate value or a
line without a frame token emits nothing. -/
def emittedProgress (total : ℕ) (s : WdState) (fr : Option ℕ) : List ℕ :=
  match fr with
  | none => []
  | some n =>
    if (n : ℤ) = s.lastFrame then []
    else if 0 < total then [min 100 (n * 100 / total)] else []

/-- The read loop of run_ffmpeg_task: each line first updates the
frame counter and the last-advance timestamp, then the watchdog
compares the current time against the updated timestamp and terminates
the child when the difference exceeds 25 seconds.  Returns the task
result together with the emitted progress values. -/
def runLoop (total : ℕ) (exitOk : Bool) :
    WdState → List (ℚ × Option ℕ) → TaskResult × List ℕ
  | _, [] => (if exitOk then TaskResult.success else TaskResult.failed, [])
  | s, (t, fr) :: rest =>
    if 25 < t - (wdUpdate s t fr).lastActive then
      (TaskResult.stalled, emittedProgress total s fr)
    else
      ((runLoop total exitOk (wdUpdate s t fr) rest).1,
        emittedProgress total s fr ++ (runLoop total exitOk (wdUpdate s t fr) rest).2)

/-- run_ffmpeg_task: the loop starts with last_frame_count = -1 and
last_active_time = t0, the launch time. -/
def run_ffmpeg_task (t0 : ℚ) (events : List (ℚ × Option ℕ)) (total : ℕ)
    (exitOk : Bool) : TaskResult × List ℕ :=
  runLoop total exitOk { lastFrame := -1, lastActive := t0 } events

/-- Folding the per-line state update over a list of lines, ignoring
the watchdog; names the supervisor state at an arbitrary point of the
loop. -/
def wdFold (s : WdState) (events : List (ℚ × Option ℕ)) : WdState :=
  events.foldl (fun s e => wdUpdate s e.1 e.2) s

/-! ### Hardware to software fallback (main_gui_v3_release.py lines 197 to 222) -/

/-- The GPU command of VideoWorker.run. -/
def cmd_gpu (ffmpegPath vpath filterStr targetFile : String) : List String :=
  [ffmpegPath, "-y", "-progress", "pipe:1", "-i", vpath,
   "-filter_complex", filterStr, "-map", "[outv]",
   "-c:v", "h264_nvenc", "-preset", "p4", "-rc:v", "vbr", "-b:v", "10M",
   "-map", "0:a?", "-c:a", "copy", targetFile]

/-- The CPU fallback command of VideoWorker.run. -/
def cmd_cpu (ffmpegPath vpath filterStr targetFile : String) : List String :=
  [ffmpegPath, "-y", "-progress", "pipe:1", "-i", vpath,
   "-filter_complex", filterStr, "-map", "[outv]",
   "-c:v", "libx264", "-preset", "veryfast",
   "-map", "0:a?", "-c:a", "copy", targetFile]

/-- What the per-unit loop body of VideoWorker.run records. -/
structure UnitReport where
  cpuAttempted : Bool
  completedIncrement : ℕ
  reportedFailed : Bool
deriving DecidableEq, Repr

/-- The unit body of VideoWorker.run: success = run_ffmpeg_task of the
GPU command; when it is false the CPU command is run and its result
dropped (the second argument is never inspected); the completion log
line is emitted and completed_tasks incremented unconditionally, and
no failure is ever reported for the unit. -/
def processUnit (gpuOk cpuOk : Bool) : UnitReport :=
  if gpuOk then
    { cpuAttempted := false, completedIncrement := 1, reportedFailed := false }
  else
    { cpuAttempted := true, completedIncrement := 1, reportedFailed := false }

/-! ### Output validation and batch loop (VE_QW_FInal_prefect.py lines 781 to 802 and 1059 to 1110) -/

/-- Result of the post-encode check of process_video. -/
structure EncodeValidation where
  unitSuccess : Bool
  warnedSmall : Bool
deriving DecidableEq, Repr

/-- The post-encode check of process_video: a missing output file
returns False (unit failed); an existing output only triggers a
warning when its size in megabytes is below 0.1, and the unit is
reported successful regardless of the size. -/
def validate_output (outputExists : Bool) (outputSizeMB : ℚ) : EncodeValidation :=
  if outputExists then
    { unitSuccess := true, warnedSmall := decide (outputSizeMB < 1/10) }
  else
    { unitSuccess := false, warnedSmall := false }

/-- The batch loop of process_all_videos: every unit is attempted, a
failed unit only lowers the success counter; the loop never aborts.
Returns (success_count, total_count). -/
def process_all_videos (unitResults : List Bool) : ℕ × ℕ :=
  (unitResults.count true, unitResults.length)

end OneKeyVE

open OneKeyVE

/-- C1: the rotation decision of process_video returns true exactly for
display ratios between 1.0 and 16/9 inclusive; every other ratio is not
rotated; and the working dimensions after a rotation are height times
width. -/
theorem C1_rotation_decision :
    (∀ r : ℚ, needs_rotation r = true ↔ (1 ≤ r ∧ r ≤ 16/9)) ∧
    (∀ w h : ℕ, workingDims true w h = (h, w) ∧ workingDims false w h = (w, h)) := by
  constructor
  · intro r
    simp [needs_rotation]
  · intro w h
    constructor <;> rfl

/-- C5: ratio classification skips exactly the ratios within strict
tolerance 1/100 of 9/16, of 9/18 or of 9/15; every other ratio is
classified as needing reframe. -/
theorem C5_ratio_classification :
    ∀ r : ℚ, is_target_ratio r = true ↔
      (|r - 9/16| < 1/100 ∨ |r - 9/18| < 1/100 ∨ |r - 9/15| < 1/100) := by
  intro r
  unfold is_target_ratio TARGET_RATIO
  split
  · simp_all
  · split
    · next h2 =>
      simp only [Bool.or_eq_true, decide_eq_true_eq] at h2
      simp_all [or_assoc]
    · next h1 h2 =>
      simp only [Bool.or_eq_true, decide_eq_true_eq, not_or] at h1 h2
      simp_all

/-- C6: the trim decision selects a trim to the leading 14 seconds
exactly when the duration exceeds 60 seconds and no trim otherwise; in
particular duration 90 trims to 14 and duration 40 selects no trim. -/
theorem C6_trim_decision :
    (∀ d : ℚ, (decideTrim d = some 14 ↔ 60 < d) ∧ (decideTrim d = none ↔ d ≤ 60)) ∧
    decideTrim 90 = some 14 ∧ decideTrim 40 = none := by
  refine ⟨?_, by decide, by decide⟩
  intro d
  unfold decideTrim MAX_DURATION TRIM_DURATION
  constructor
  · split <;> simp_all
  · split <;> simp_all [not_lt]

/-- C10: when a source exceeds the 60 second limit but the trim step
fails, process_video does not abort the unit: it keeps the original
untrimmed source as working source and, when the remaining steps
succeed, still reports success. -/
theorem C10_trim_failure_tolerated :
    ∀ (d : ℚ) (reprobeOk : Bool), 60 < d →
      trim_stage d false reprobeOk = some WorkingSource.original ∧
      process_video_outcome d false reprobeOk true = true := by
  intro d reprobeOk hd
  have h : trim_stage d false reprobeOk = some WorkingSource.original := by
    unfold trim_stage MAX_DURATION
    rw [if_pos hd]
    simp
  exact ⟨h, by unfold process_video_outcome; rw [h]⟩

/-- Witness for C10 at duration 90. -/
theorem C10_trim_failure_tolerated_witness :
    (60 : ℚ) < 90 ∧
      trim_stage 90 false true = some WorkingSource.original ∧
      process_video_outcome 90 false true true = true :=
  ⟨by norm_num, C10_trim_failure_tolerated 90 true (by norm_num)⟩

/-- C4 fails as stated: the fit and offset invariants do not hold for
every source and every positive target canvas.  A 160x160 source whose
display ratio is 1/2 (sample aspect ratio 0.5) on the 1080x1920 canvas
gets a foreground wider than the canvas and a negative x offset, and a
1000x1500 source (ratio 2/3, SAR 1) on a square 1000x1000 canvas gets
a foreground taller than the canvas and a negative y offset. -/
theorem C4_counterexample :
    ((create_feathered_foreground 160 160 (1/2) 1080 1920).padX < 0 ∧
      1080 < (create_feathered_foreground 160 160 (1/2) 1080 1920).scaledW) ∧
    ((create_feathered_foreground 1000 1500 (2/3) 1000 1000).padY < 0 ∧
      1000 < (create_feathered_foreground 1000 1500 (2/3) 1000 1000).scaledH) := by
  have h1 : ¬ ( TARGET_RATIO < (1/2 : ℚ)) := by norm_num [ TARGET_RATIO]
  have h2 : TARGET_RATIO < (2/3 : ℚ) := by norm_num [ TARGET_RATIO]
  unfold create_feathered_foreground
  rw [if_neg h1, if_pos h2]
  refine ⟨⟨?_, ?_⟩, ?_, ?_⟩ <;> decide

/-- C4 (amended): for a source with positive dimensions whose display
ratio equals its pixel ratio (SAR = 1) and a positive 9:16 target
canvas (the scripts always pass 1080x1920), the plan satisfies the
geometric invariants: the foreground fit-scaled size is at most the
target in both dimensions, the centering offsets are non-negative, and
the cover-scaled background size is at least the target in both
dimensions. -/
theorem C4_geometry_invariants (origW origH target_width target_height : ℕ)
    (original_ratio : ℚ)
    (hW : 0 < origW) (hH : 0 < origH)
    (hTW : 0 < target_width) (hTH : 0 < target_height)
    (hratio : original_ratio = (origW : ℚ) / origH)
    (hcanvas : 16 * target_width = 9 * target_height) :
    (create_feathered_foreground origW origH original_ratio target_width target_height).scaledW
        ≤ target_width ∧
    (create_feathered_foreground origW origH original_ratio target_width target_height).scaledH
        ≤ target_height ∧
    0 ≤ (create_feathered_foreground origW origH original_ratio target_width target_height).padX ∧
    0 ≤ (create_feathered_foreground origW origH original_ratio target_width target_height).padY ∧
    (target_width : ℚ) ≤ (coverScaledSize origW origH target_width target_height).1 ∧
    (target_height : ℚ) ≤ (coverScaledSize origW origH target_width target_height).2 := by
  have hWQ : (0 : ℚ) < (origW : ℚ) := by exact_mod_cast hW
  have hHQ : (0 : ℚ) < (origH : ℚ) := by exact_mod_cast hH
  have hcover1 : (target_width : ℚ) ≤ (coverScaledSize origW origH target_width target_height).1 := by
    unfold coverScaledSize
    have h1 : (target_width : ℚ) / origW ≤ max ((target_width : ℚ) / origW) ((target_height : ℚ) / origH) :=
      le_max_left _ _
    calc (target_width : ℚ) = origW * ((target_width : ℚ) / origW) := by
          field_simp
      _ ≤ origW * max ((target_width : ℚ) / origW) ((target_height : ℚ) / origH) := by
          exact mul_le_mul_of_nonneg_left h1 (le_of_lt hWQ)
  have hcover2 : (target_height : ℚ) ≤ (coverScaledSize origW origH target_width target_height).2 := by
    unfold coverScaledSize
    have h1 : (target_height : ℚ) / origH ≤ max ((target_width : ℚ) / origW) ((target_height : ℚ) / origH) :=
      le_max_right _ _
    calc (target_height : ℚ) = origH * ((target_height : ℚ) / origH) := by
          field_simp
      _ ≤ origH * max ((target_width : ℚ) / origW) ((target_height : ℚ) / origH) := by
          exact mul_le_mul_of_nonneg_left h1 (le_of_lt hHQ)
  unfold create_feathered_foreground
  by_cases hcase : TARGET_RATIO < original_ratio
  · rw [if_pos hcase]
    rw [hratio] at hcase
    unfold TARGET_RATIO at hcase
    rw [div_lt_div_iff (by norm_num : (0:ℚ) < 16) hHQ] at hcase
    have hnat : 9 * origH < origW * 16 := by exact_mod_cast hcase
    have hfit : origH * target_width / origW ≤ target_height := by
      have hmul : origH * target_width ≤ origW * target_height := by nlinarith
      calc origH * target_width / origW ≤ origW * target_height / origW :=
            Nat.div_le_div_right hmul
        _ = target_height := Nat.mul_div_cancel_left _ hW
    refine ⟨le_refl _, hfit, le_refl 0, ?_, hcover1, hcover2⟩
    exact Int.fdiv_nonneg (by omega) (by norm_num)
  · rw [if_neg hcase]
    push_neg at hcase
    rw [hratio] at hcase
    unfold TARGET_RATIO at hcase
    rw [div_le_div_iff hHQ (by norm_num : (0:ℚ) < 16)] at hcase
    have hnat : origW * 16 ≤ 9 * origH := by exact_mod_cast hcase
    have hfit : origW * target_height / origH ≤ target_width := by
      have hmul : origW * target_height ≤ origH * target_width := by nlinarith
      calc origW * target_height / origH ≤ origH * target_width / origH :=
            Nat.div_le_div_right hmul
        _ = target_width := Nat.mul_div_cancel_left _ hH
    refine ⟨hfit, le_refl _, ?_, le_refl 0, hcover1, hcover2⟩
    exact Int.fdiv_nonneg (by omega) (by norm_num)

/-- Witness for C4 (amended) at a 1600x900 source (ratio 16/9, SAR 1)
and the 1080x1920 canvas. -/
theorem C4_geometry_invariants_witness :
    (0 < 1600 ∧ 0 < 900 ∧ 0 < 1080 ∧ 0 < 1920 ∧
      (16/9 : ℚ) = (1600 : ℕ) / (900 : ℕ) ∧ 16 * 1080 = 9 * (1920 : ℕ)) ∧
    ((create_feathered_foreground 1600 900 (16/9) 1080 1920).scaledW ≤ 1080 ∧
      (create_feathered_foreground 1600 900 (16/9) 1080 1920).scaledH ≤ 1920 ∧
      0 ≤ (create_feathered_foreground 1600 900 (16/9) 1080 1920).padX ∧
      0 ≤ (create_feathered_foreground 1600 900 (16/9) 1080 1920).padY ∧
      (1080 : ℚ) ≤ (coverScaledSize 1600 900 1080 1920).1 ∧
      (1920 : ℚ) ≤ (coverScaledSize 1600 900 1080 1920).2) :=
  ⟨⟨by norm_num, by norm_num, by norm_num, by norm_num, by norm_num, by norm_num⟩,
    C4_geometry_invariants 1600 900 1080 1920 (16/9)
      (by norm_num) (by norm_num) (by norm_num) (by norm_num)
      (by norm_num) (by norm_num)⟩

/-- C8 fails as stated: the feather width is never clamped, so for a
small target canvas such as 40x40 the fixed 30 pixel width is not
below half the smaller target dimension. -/
theorem C8_counterexample :
    ¬ ((featherWidthPx 40 40 : ℚ) < ((min 40 40 : ℕ) : ℚ) / 2) := by
  norm_num [featherWidthPx, FEATHER_WIDTH]

/-- C8 (amended): the feather width is the fixed constant 30 with no
clamping; the bound featherWidthPx below half the smaller target
dimension holds exactly for canvases whose smaller dimension exceeds
60 pixels, which covers the fixed 1080x1920 canvas the scripts use. -/
theorem C8_feather_width (targetW targetH : ℕ) (h : 60 < min targetW targetH) :
    featherWidthPx targetW targetH = 30 ∧
      (featherWidthPx targetW targetH : ℚ) < ((min targetW targetH : ℕ) : ℚ) / 2 := by
  refine ⟨rfl, ?_⟩
  have hq : (60 : ℚ) < ((min targetW targetH : ℕ) : ℚ) := by exact_mod_cast h
  rw [lt_div_iff (by norm_num : (0:ℚ) < 2)]
  calc ((featherWidthPx targetW targetH : ℕ) : ℚ) * 2 = 60 := by
        norm_num [featherWidthPx, FEATHER_WIDTH]
    _ < _ := hq

/-- Witness for C8 (amended) at the 1080x1920 canvas. -/
theorem C8_feather_width_witness :
    60 < min 1080 1920 ∧
      (featherWidthPx 1080 1920 = 30 ∧
        (featherWidthPx 1080 1920 : ℚ) < ((min 1080 1920 : ℕ) : ℚ) / 2) :=
  ⟨by norm_num, C8_feather_width 1080 1920 (by norm_num)⟩

/-- Helper for the watchdog theorem: if some line of the stream, at
its point in the loop, is read more than 25 seconds after the
last-advance timestamp that its own processing produces, the loop
reports a stall. -/
theorem runLoop_stall_of_gap (total : ℕ) (exitOk : Bool)
    (pre : List (ℚ × Option ℕ)) :
    ∀ (s : WdState) (t : ℚ) (fr : Option ℕ) (post : List (ℚ × Option ℕ)),
      25 < t - (wdUpdate (wdFold s pre) t fr).lastActive →
      (runLoop total exitOk s (pre ++ (t, fr) :: post)).1 = TaskResult.stalled := by
  induction pre with
  | nil =>
    intro s t fr post h
    have h2 : 25 < t - (wdUpdate s t fr).lastActive := h
    rw [List.nil_append]
    simp only [runLoop, if_pos h2]
  | cons e pre ih =>
    intro s t fr post h
    obtain ⟨t1, fr1⟩ := e
    have h2 : 25 < t - (wdUpdate (wdFold (wdUpdate s t1 fr1) pre) t fr).lastActive := h
    rw [List.cons_append]
    simp only [runLoop]
    by_cases hc : 25 < t1 - (wdUpdate s t1 fr1).lastActive
    · rw [if_pos hc]
    · rw [if_neg hc]
      exact ih (wdUpdate s t1 fr1) t fr post h2

/-- C2 fails as stated: a progress stream whose frame counter does not
advance for 29 seconds, the gap being ended by a line that itself
advances the counter, is not terminated, because the loop resets the
last-advance timestamp before the watchdog check; the task completes
successfully. -/
theorem C2_counterexample :
    (run_ffmpeg_task 0 [(1, some 1), (30, some 2)] 300 true).1 = TaskResult.success ∧
    (25 : ℚ) < 30 - 1 := by
  constructor
  · have hc1 : ¬ ((25 : ℚ) < 1 - (wdUpdate ⟨-1, 0⟩ 1 (some 1)).lastActive) := by
      show ¬ ((25 : ℚ) < 1 - 1)
      norm_num
    have hc2 : ¬ ((25 : ℚ) < 30 - (wdUpdate ⟨1, 1⟩ 30 (some 2)).lastActive) := by
      show ¬ ((25 : ℚ) < 30 - 30)
      norm_num
    show (runLoop 300 true ⟨-1, 0⟩ [(1, some 1), (30, some 2)]).1 = TaskResult.success
    simp only [runLoop, if_neg hc1]
    have e1 : wdUpdate ⟨-1, 0⟩ 1 (some 1) = ⟨1, 1⟩ := by decide
    rw [e1]
    simp only [runLoop, if_neg hc2]
    simp
  · norm_num

/-- C2 (amended): whenever some line of the progress stream is read
more than 25 seconds after the last frame-counter advance and that
line does not itself advance the counter, the supervisor terminates
the child process and reports the attempt as stalled; a silent gap
ended by a line that advances the counter does not fire the watchdog,
because the timestamp is reset before the check. -/
theorem C2_stall_watchdog (t0 : ℚ) (pre post : List (ℚ × Option ℕ)) (t : ℚ)
    (fr : Option ℕ) (total : ℕ) (exitOk : Bool)
    (h : 25 < t -
      (wdUpdate (wdFold { lastFrame := -1, lastActive := t0 } pre) t fr).lastActive) :
    (run_ffmpeg_task t0 (pre ++ (t, fr) :: post) total exitOk).1 = TaskResult.stalled :=
  runLoop_stall_of_gap total exitOk pre _ t fr post h

/-- Witness for C2 (amended): a single frame-free line read 26 seconds
after launch stalls the task. -/
theorem C2_stall_watchdog_witness :
    (25 : ℚ) <
      26 - (wdUpdate (wdFold { lastFrame := -1, lastActive := 0 }
        ([] : List (ℚ × Option ℕ))) 26 none).lastActive ∧
    (run_ffmpeg_task 0 [((26 : ℚ), none)] 0 true).1 = TaskResult.stalled := by
  have h : (25 : ℚ) <
      26 - (wdUpdate (wdFold { lastFrame := -1, lastActive := 0 }
        ([] : List (ℚ × Option ℕ))) 26 none).lastActive := by
    show (25 : ℚ) < 26 - (0 : ℚ)
    norm_num
  exact ⟨h, C2_stall_watchdog 0 [] [] 26 none 0 true h⟩

/-- C7 fails as stated: with 100 total frames, the stream frame=10
then frame=5 emits the progress values 10 then 5: the lower value is
not discarded and the emitted sequence decreases. -/
theorem C7_counterexample :
    (run_ffmpeg_task 0 [(1, some 10), (2, some 5)] 100 true).2 = [10, 5] ∧
    ¬ List.Chain' (· ≤ ·) (run_ffmpeg_task 0 [(1, some 10), (2, some 5)] 100 true).2 := by
  have hc1 : ¬ ((25 : ℚ) < 1 - (wdUpdate ⟨-1, 0⟩ 1 (some 10)).lastActive) := by
    show ¬ ((25 : ℚ) < 1 - 1)
    norm_num
  have hc2 : ¬ ((25 : ℚ) < 2 - (wdUpdate ⟨10, 1⟩ 2 (some 5)).lastActive) := by
    show ¬ ((25 : ℚ) < 2 - 2)
    norm_num
  have hrun : (run_ffmpeg_task 0 [(1, some 10), (2, some 5)] 100 true).2 = [10, 5] := by
    show (runLoop 100 true ⟨-1, 0⟩ [(1, some 10), (2, some 5)]).2 = [10, 5]
    simp only [runLoop, if_neg hc1]
    have e1 : wdUpdate ⟨-1, 0⟩ 1 (some 10) = ⟨10, 1⟩ := by decide
    rw [e1]
    simp only [runLoop, if_neg hc2]
    decide
  refine ⟨hrun, ?_⟩
  rw [hrun]
  simp [List.chain'_cons]

/-- C7 (amended): a frame value equal to the last seen one is
discarded — no callback, no watchdog reset; but a frame value that
differs from the last one, including a strictly smaller one, emits a
progress callback and resets the watchdog timestamp, so the emitted
sequence of progress values can decrease. -/
theorem C7_progress_emission (s : WdState) (t : ℚ) (n total : ℕ) :
    ((n : ℤ) = s.lastFrame →
      wdUpdate s t (some n) = s ∧ emittedProgress total s (some n) = []) ∧
    ((n : ℤ) ≠ s.lastFrame → 0 < total →
      wdUpdate s t (some n) = { lastFrame := (n : ℤ), lastActive := t } ∧
      emittedProgress total s (some n) = [min 100 (n * 100 / total)]) := by
  constructor
  · intro h
    constructor
    · show (if (n : ℤ) = s.lastFrame then s else _) = s
      rw [if_pos h]
    · show (if (n : ℤ) = s.lastFrame then ([] : List ℕ) else _) = []
      rw [if_pos h]
  · intro h htot
    constructor
    · show (if (n : ℤ) = s.lastFrame then s else _) = _
      rw [if_neg h]
    · show (if (n : ℤ) = s.lastFrame then ([] : List ℕ) else _) = _
      rw [if_neg h, if_pos htot]

/-- Witness for C7 (amended): at last frame 10, a repeated frame=10
line is discarded, while frame=5 (a decrease) is emitted as progress
value 5 and resets the timestamp. -/
theorem C7_progress_emission_witness :
    (wdUpdate { lastFrame := 10, lastActive := 0 } 1 (some 10) =
        { lastFrame := 10, lastActive := 0 } ∧
      emittedProgress 100 { lastFrame := 10, lastActive := 0 } (some 10) = []) ∧
    (wdUpdate { lastFrame := 10, lastActive := 0 } 1 (some 5) =
        { lastFrame := 5, lastActive := 1 } ∧
      emittedProgress 100 { lastFrame := 10, lastActive := 0 } (some 5) = [5]) := by
  refine ⟨(C7_progress_emission ⟨10, 0⟩ 1 10 100).1 (by norm_num), ?_⟩
  have h := (C7_progress_emission ⟨10, 0⟩ 1 5 100).2 (by norm_num) (by norm_num)
  simpa using h

/-- C3 fails as stated: when the hardware attempt and the software
retry both fail, the unit is still logged complete, the completed
counter is incremented, and no failure is reported. -/
theorem C3_counterexample :
    processUnit false false =
      { cpuAttempted := true, completedIncrement := 1, reportedFailed := false } := by
  rfl

/-- C3 (amended): on a hardware failure the worker retries exactly
once with the software encoder, passing the identical filter graph to
both commands; however the software result is discarded — the unit is
counted complete and no failure is reported regardless of either
outcome. -/
theorem C3_fallback_policy (gpuOk cpuOk : Bool) (p v f tgt : String) :
    (processUnit gpuOk cpuOk).cpuAttempted = !gpuOk ∧
    (processUnit gpuOk cpuOk).completedIncrement = 1 ∧
    (processUnit gpuOk cpuOk).reportedFailed = false ∧
    (cmd_gpu p v f tgt)[6]? = some "-filter_complex" ∧
    (cmd_gpu p v f tgt)[7]? = some f ∧
    (cmd_cpu p v f tgt)[6]? = some "-filter_complex" ∧
    (cmd_cpu p v f tgt)[7]? = some f := by
  refine ⟨?_, ?_, ?_, rfl, rfl, rfl, rfl⟩ <;> cases gpuOk <;> rfl

/-- C9 fails as stated: an output file that exists with size 0 does
not fail the unit; process_video reports success and only emits a
small-output warning. -/
theorem C9_counterexample :
    (validate_output true 0).unitSuccess = true ∧
    (validate_output true 0).warnedSmall = true := by
  constructor
  · rfl
  · show decide ((0 : ℚ) < 1/10) = true
    norm_num

/-- C9 (amended): output validation fails the unit exactly when the
output file is missing; an existing output of any size, including
zero, keeps the unit successful, with a warning exactly when the size
is below 0.1 MB; and the batch loop always processes every unit. -/
theorem C9_output_validation (sz : ℚ) (results : List Bool) :
    (validate_output false sz).unitSuccess = false ∧
    (validate_output true sz).unitSuccess = true ∧
    ((validate_output true sz).warnedSmall = true ↔ sz < 1/10) ∧
    (process_all_videos results).2 = results.length := by
  refine ⟨rfl, rfl, ?_, rfl⟩
  show decide (sz < 1/10) = true ↔ sz < 1/10
  exact decide_eq_true_iff
